import Mathlib

/-!
Verification development for `src/trainer/mbo_lens.py` (NeuralLitho):
a shallow embedding of the model-based optimization loop for imaging
lens design (`CameraPipeline` and `MBOLens`), together with theorems
settling the behavioural claims about it.

Modelling conventions:
* Torch tensors are flat lists of extended values (`Fl`): a value is
  `nan`, `inf`, or a finite rational.  Shapes and devices are not part
  of any claim, so the flat list suffices.
* External collaborators (the DOE parameterization, the free-space
  propagation model, the lithography model, the deconvolution routine,
  the metric and utility functions from `utils.*` and `task.*`, and the
  AdamW optimizer / StepLR scheduler) live outside `src/` and are kept
  abstract: they are fields of the `Ext` and `OptCfg` records, supplied
  by the caller exactly as Python resolves them at import/run time.
* `raise` sites become `Except.error` with a constructor naming the
  Python exception site.
-/

namespace NeuralLitho

/-- Extended scalar value: models a float tensor element, distinguishing
NaN and Inf from finite values (the finite payload is a rational). -/
inductive Fl where
  | nan : Fl
  | inf : Fl
  | fin : ℚ → Fl
deriving DecidableEq, Repr

/-- A torch tensor, flattened to its list of elements. -/
abbrev Tensor := List Fl

/-- The DOE logits tensor (`self.camera.doe.logits`), a flat list of
finite trainable reals. -/
abbrev Logits := List ℚ

/-- `torch.isnan` on one element. -/
def Fl.isNaN : Fl → Bool
  | .nan => true
  | _ => false

/-- Element is Inf. -/
def Fl.isInf : Fl → Bool
  | .inf => true
  | _ => false

/-- `torch.isnan(t).any()`. -/
def hasNaN (t : Tensor) : Bool := t.any Fl.isNaN

/-- `torch.isinf(t).any()` (never called by the source; used to state
claims about Inf elements). -/
def hasInf (t : Tensor) : Bool := t.any Fl.isInf

/-- IEEE-style addition on extended values (NaN absorbs; Inf absorbs
finite values).  Used for `torch.sum` and elementwise `+`. -/
def Fl.add : Fl → Fl → Fl
  | .nan, _ => .nan
  | _, .nan => .nan
  | .inf, _ => .inf
  | _, .inf => .inf
  | .fin a, .fin b => .fin (a + b)

/-- `torch.sum` over a tensor. -/
def sumT (t : Tensor) : Fl := t.foldl Fl.add (.fin 0)

/-- Elementwise tensor addition (`sensor_img + noise`). -/
def tadd (a b : Tensor) : Tensor := a.zipWith Fl.add b

/-- `torch.abs(x)**2` on one element of the complex field returned by the
propagation model: magnitude squared, preserving NaN and Inf. -/
def absSq : Fl → Fl
  | .nan => .nan
  | .inf => .inf
  | .fin q => .fin (q * q)

/-- Python exception sites of the embedded code. -/
inductive Err where
  /-- the bare `raise` after the `torch.isnan(psf).any()` check in
  `CameraPipeline.get_psf` -/
  | nanPSF : Err
  /-- the `raise Exception` in the final `else` of `MBOLens.calculate_loss` -/
  | badLossType : Err
  /-- `AttributeError`: `psf_save.numpy()` with `psf_save is None` in
  `MBOLens.save_optimized_psf_mask` -/
  | noneDeref : Err
  /-- `NameError`: a loop-local variable read after a loop that ran zero
  iterations -/
  | unboundVar : Err
  /-- `ZeroDivisionError`: `(i + 1) % self.image_visualize_interval`
  with a zero interval in `MBOLens.visualize` -/
  | zeroDiv : Err
deriving DecidableEq, Repr

/-- The external collaborators of the core, as the source resolves them:
each field is the (abstract) denotation of one imported callable or of a
method of an out-of-scope object.  The core never inspects these beyond
calling them. -/
structure Ext where
  /-- `self.doe.get_doe_sample()` as a function of the current logits -/
  get_doe_sample : Logits → Tensor
  /-- the lithography model forward (`litho_model(mask)`) -/
  litho_model : Tensor → Tensor
  /-- `self.lens_model(print_pred)`: the FreeSpaceFwd complex field -/
  lens_model : Tensor → Tensor
  /-- `conv2d(batch_target, psf, intensity_output)` from `utils.general_utils` -/
  conv2d : Tensor → Tensor → Bool → Tensor
  /-- `sensor_noise(img, a, b)` from `utils.general_utils` -/
  sensor_noise : Tensor → ℚ → ℚ → Tensor
  /-- `center_to_background_ratio(psf, centersize)` from `utils.general_utils` -/
  cbrFn : Tensor → ℕ → ℚ
  /-- `torch.log` on a scalar -/
  logFn : ℚ → ℚ
  /-- `torch_richardson_lucy_fft(cam_img, psf)` from `task.reconstruction` -/
  torch_richardson_lucy_fft : Tensor → Tensor → Tensor
  /-- `self.loss_fn = nn.SmoothL1Loss(beta=0.1)` as a scalar-valued distance -/
  loss_fn : Tensor → Tensor → ℚ
  /-- `self.metric_ssim = SSIMLoss(window_size=1)` raw value -/
  ssimLoss : Tensor → Tensor → ℚ
  /-- `self.metric_psnr = PSNRLoss(max_val=1)` raw value -/
  psnrLoss : Tensor → Tensor → ℚ
  /-- `normalize` from `utils.general_utils` -/
  normalize : Tensor → Tensor
  /-- `central_crop(t, n)` from `utils.general_utils` -/
  central_crop : Tensor → ℕ → Tensor
  /-- `self.camera.doe.logits_to_doe_profile()[0]` as a function of the logits -/
  logits_to_doe_profile : Logits → Tensor

/-- The constructor arguments of `MBOLens` (its configuration surface). -/
structure Config where
  model_choice : String
  use_litho_model_flag : Bool
  num_iters : ℕ
  lr : ℚ
  use_scheduler : Bool
  image_visualize_interval : ℕ
  cam_a_poisson : ℚ
  cam_b_sqrt : ℚ
  save_dir : String
  loss_type : Option String
deriving DecidableEq, Repr

/-- The AdamW optimizer over `[self.camera.doe.logits]` plus the StepLR
scheduler, abstracted: `step` is one `mask_optimizer.step()` after
`loss.backward()` (the gradient of the loss as a function of the current
logits is folded into the abstract update, the target batch and all
externals being fixed for the run), `sched` is one `scheduler.step()`
acting on the optimizer-internal state (the learning rate). -/
structure OptCfg where
  step : List ℚ → Logits → List ℚ × Logits
  sched : List ℚ → List ℚ

/-- The `print_pred` of `CameraPipeline.get_psf` as a function of the
current logits: `litho_model(mask)` if `use_litho_model_flag` else `mask`. -/
def printAt (flag : Bool) (ext : Ext) (l : Logits) : Tensor :=
  if flag then ext.litho_model (ext.get_doe_sample l) else ext.get_doe_sample l

/-- The `psf` of `CameraPipeline.get_psf` as a function of the current
logits: `torch.abs(self.lens_model(print_pred))**2`. -/
def psfAt (flag : Bool) (ext : Ext) (l : Logits) : Tensor :=
  (ext.lens_model (printAt flag ext l)).map absSq

/-- `CameraPipeline.get_psf`: sample the DOE, optionally run the litho
model, propagate, take intensity, and `raise` (bare) when any PSF element
is NaN.  Returns `(psf, psf_sum, print_pred, mask)`. -/
def get_psf (flag : Bool) (ext : Ext) (l : Logits) :
    Except Err (Tensor × Fl × Tensor × Tensor) :=
  let mask := ext.get_doe_sample l
  let print_pred := printAt flag ext l
  let psf := psfAt flag ext l
  let psf_sum := sumT psf
  if hasNaN psf then .error .nanPSF
  else .ok (psf, psf_sum, print_pred, mask)

/-- The `sensor_img` of `CameraPipeline.forward`:
`conv2d(batch_target, psf, intensity_output=True)` plus
`sensor_noise(sensor_img, 0.004, 0.02)` — note the hardcoded noise
coefficients. -/
def mkSensor (ext : Ext) (batch_target psf : Tensor) : Tensor :=
  let base := ext.conv2d batch_target psf true
  tadd base (ext.sensor_noise base (4/1000) (2/100))

/-- `CameraPipeline.forward`: returns
`(sensor_img, psf, psf_sum, print_pred, mask)`. -/
def forward (flag : Bool) (ext : Ext) (l : Logits) (batch_target : Tensor) :
    Except Err (Tensor × Tensor × Fl × Tensor × Tensor) :=
  match get_psf flag ext l with
  | .error e => .error e
  | .ok (psf, psf_sum, print_pred, mask) =>
      .ok (mkSensor ext batch_target psf, psf, psf_sum, print_pred, mask)

/-- The `(loss, deconv_result, metric_ssim, metric_psnr)` result of
`MBOLens.calculate_loss`, plus `deconvCalls`, the number of times the
branch invoked `torch_richardson_lucy_fft` (0 or 1 by the structure of
the source). -/
structure LossResult where
  loss : ℚ
  deconv_result : Option Tensor
  metric_ssim : List ℚ
  metric_psnr : List ℚ
  deconvCalls : ℕ
deriving DecidableEq, Repr

/-- `MBOLens.calculate_loss`: the two metric heads are computed on
`(cam_img, target)` first; then the branch on `self.loss_type` either
computes the direct `cbr` loss, or runs Richardson–Lucy deconvolution
and the smooth-L1 loss with a second pair of metrics, or prints and
`raise Exception`. -/
def calculate_loss (loss_type : Option String) (ext : Ext)
    (cam_img target psf : Tensor) : Except Err LossResult :=
  let metric_ssim1 : ℚ := 1 - ext.ssimLoss cam_img target * 2
  let metric_psnr1 : ℚ := - ext.psnrLoss cam_img target
  if loss_type = some "cbr" then
    .ok { loss := - ext.logFn (ext.cbrFn psf 10)
          deconv_result := none
          metric_ssim := [metric_ssim1]
          metric_psnr := [metric_psnr1]
          deconvCalls := 0 }
  else if loss_type = some "deconv_loss" then
    let deconv_result := ext.torch_richardson_lucy_fft cam_img psf
    .ok { loss := ext.loss_fn deconv_result target
          deconv_result := some deconv_result
          metric_ssim := [metric_ssim1, 1 - ext.ssimLoss deconv_result target * 2]
          metric_psnr := [metric_psnr1, - ext.psnrLoss deconv_result target]
          deconvCalls := 1 }
  else .error .badLossType

/-- `MBOLens.visualize`, reduced to its observable value: `psf_save` is
the cropped normalized PSF when `(i + 1) % interval == 0`, else `None`;
the `show`/`print`/`plot_loss` calls are display-only.  A zero interval
makes the modulo raise `ZeroDivisionError`. -/
def visualize (interval : ℕ) (ext : Ext) (i : ℕ) (psf : Tensor) :
    Except Err (Option Tensor) :=
  if interval = 0 then .error .zeroDiv
  else if (i + 1) % interval = 0 then
    .ok (some (ext.central_crop (ext.normalize psf) 128))
  else .ok none

/-- The mutable state carried across iterations of `MBOLens.optim`:
the logits (updated in place by the optimizer), the abstract
optimizer/scheduler state, the two history lists, plus the loop-local
variables observable after the loop (`print_pred` and `psf_save`,
`none` when still unbound), an optimizer-step counter, and the list of
iterations at which diagnostics were actually rendered. -/
structure LoopState where
  logits : Logits
  optState : List ℚ
  loss_list : List ℚ
  itr_list : List ℕ
  stepCount : ℕ
  last_print_pred : Option Tensor
  psf_save : Option (Option Tensor)
  rendered : List ℕ
deriving DecidableEq, Repr

/-- State at `optim` entry: empty histories, loop locals unbound. -/
def initState (l0 : Logits) (o0 : List ℚ) : LoopState :=
  { logits := l0, optState := o0, loss_list := [], itr_list := [],
    stepCount := 0, last_print_pred := none, psf_save := none, rendered := [] }

/-- One iteration of the `for i in range(self.num_iters)` loop of
`MBOLens.optim`: `zero_grad` (no observable effect here), camera
forward, loss, `backward` + one optimizer step, optional scheduler step,
history appends, then `visualize`. -/
def runIter (cfg : Config) (ext : Ext) (opt : OptCfg) (batch_target : Tensor)
    (i : ℕ) (s : LoopState) : Except Err LoopState :=
  match forward cfg.use_litho_model_flag ext s.logits batch_target with
  | .error e => .error e
  | .ok (sensor_img, psf, _psf_sum, print_pred, _mask) =>
    match calculate_loss cfg.loss_type ext sensor_img batch_target psf with
    | .error e => .error e
    | .ok lres =>
      let st := opt.step s.optState s.logits
      let optState1 := if cfg.use_scheduler then opt.sched st.1 else st.1
      match visualize cfg.image_visualize_interval ext i psf with
      | .error e => .error e
      | .ok vres =>
        .ok { logits := st.2
              optState := optState1
              loss_list := s.loss_list ++ [lres.loss]
              itr_list := s.itr_list ++ [i]
              stepCount := s.stepCount + 1
              last_print_pred := some print_pred
              psf_save := some vres
              rendered := s.rendered ++ (if vres.isSome then [i] else []) }

/-- Run the loop body over the given iteration indices, stopping at the
first raised exception (returning the state as of the failed iteration's
entry, with the exception). -/
def runLoopAux (cfg : Config) (ext : Ext) (opt : OptCfg) (batch_target : Tensor) :
    LoopState → List ℕ → LoopState × Option Err
  | s, [] => (s, none)
  | s, i :: rest =>
    match runIter cfg ext opt batch_target i s with
    | .ok s1 => runLoopAux cfg ext opt batch_target s1 rest
    | .error e => (s, some e)

/-- The whole `for i in range(self.num_iters)` loop of `MBOLens.optim`. -/
def runLoop (cfg : Config) (ext : Ext) (opt : OptCfg) (batch_target : Tensor)
    (l0 : Logits) (o0 : List ℚ) : LoopState × Option Err :=
  runLoopAux cfg ext opt batch_target (initState l0 o0) (List.range cfg.num_iters)

/-- `MBOLens.save_optimized_psf_mask`: renders the final discretized
profile from the current logits, then calls `psf_save.numpy()` — an
`AttributeError` when the snapshot is `None`.  An unbound `psf_save`
(zero loop iterations) is a `NameError` at the call site. -/
def save_optimized_psf_mask (ext : Ext) (l : Logits)
    (psf_save : Option (Option Tensor)) : Except Err Tensor :=
  match psf_save with
  | none => .error .unboundVar
  | some none => .error .noneDeref
  | some (some _) => .ok (ext.logits_to_doe_profile l)

/-- `MBOLens.optim`: the loop, then finalization, returning
`(mask_logits, print_pred)`. -/
def optim (cfg : Config) (ext : Ext) (opt : OptCfg) (batch_target : Tensor)
    (l0 : Logits) (o0 : List ℚ) : Except Err (Tensor × Tensor) :=
  match runLoop cfg ext opt batch_target l0 o0 with
  | (_, some e) => .error e
  | (s, none) =>
    match save_optimized_psf_mask ext s.logits s.psf_save with
    | .error e => .error e
    | .ok mask_logits =>
      match s.last_print_pred with
      | some print_pred => .ok (mask_logits, print_pred)
      | none => .error .unboundVar

/-- The part of the loop state that drives the optimization trajectory:
everything except the visualization artifacts (`psf_save`, `rendered`). -/
def LoopState.core (s : LoopState) :
    Logits × List ℚ × List ℚ × List ℕ × ℕ × Option Tensor :=
  (s.logits, s.optState, s.loss_list, s.itr_list, s.stepCount, s.last_print_pred)

/-- One parameter tensor of the lithography model, with the real
`requires_grad` flag and the attribute the source actually assigns,
`requries_grad` (a misspelling creating a fresh attribute). -/
structure Param where
  value : ℚ
  requires_grad : Bool
  requries_grad : Bool
deriving DecidableEq, Repr

/-- `self.litho_model.load_state_dict(checkpoint)`: replaces the values
of the parameters with the checkpoint's. -/
def load_state_dict (params : List Param) (ckpt : List ℚ) : List Param :=
  params.zipWith (fun p c => { p with value := c }) ckpt

/-- `MBOLens.load_pretrained_litho_model`: when the flag is set, load
the checkpoint and run `for param in ...: param.requries_grad = False` —
exactly as written, the assignment targets the misspelled attribute. -/
def load_pretrained_litho_model (use_litho_model_flag : Bool)
    (ckpt : List ℚ) (params : List Param) : List Param :=
  if use_litho_model_flag then
    (load_state_dict params ckpt).map fun p => { p with requries_grad := false }
  else params

/-- The camera forward call as made inside `MBOLens.optim`
(`self.camera(batch_target, self.litho_model)`), in the context of a
configured run: only `use_litho_model_flag` of the configuration reaches
the pipeline; in particular the configured `cam_a_poisson` / `cam_b_sqrt`
are stored on the `MBOLens` object but never read by `forward`. -/
def mbo_forward (cfg : Config) (ext : Ext) (l : Logits) (t : Tensor) :
    Except Err (Tensor × Tensor × Fl × Tensor × Tensor) :=
  forward cfg.use_litho_model_flag ext l t

/-- A concrete instantiation of the external collaborators, used to
evaluate the embedded code on closed inputs. -/
def extW : Ext :=
  { get_doe_sample := fun l => l.map Fl.fin
    litho_model := fun t => t
    lens_model := fun t => t
    conv2d := fun a _ _ => a
    sensor_noise := fun t _ _ => t
    cbrFn := fun _ _ => 1
    logFn := fun q => q
    torch_richardson_lucy_fft := fun a _ => a
    loss_fn := fun _ _ => 0
    ssimLoss := fun _ _ => 0
    psnrLoss := fun _ _ => 0
    normalize := fun t => t
    central_crop := fun t _ => t
    logits_to_doe_profile := fun l => l.map Fl.fin }

/-- A concrete optimizer instantiation (structural update, so closed
runs evaluate by `rfl`). -/
def optW : OptCfg :=
  { step := fun o l => (o, (0 : ℚ) :: l)
    sched := fun o => o }

/-- A concrete configuration: two iterations, visualization every
iteration, direct (`cbr`) objective, lithography model bypassed. -/
def cfgW : Config :=
  { model_choice := "m", use_litho_model_flag := false, num_iters := 2,
    lr := 1/100, use_scheduler := false, image_visualize_interval := 1,
    cam_a_poisson := 1/2, cam_b_sqrt := 1/3, save_dir := "out",
    loss_type := some "cbr" }

/-- `cfgW` with an unrecognized `loss_type` and a single iteration. -/
def cfgBad : Config := { cfgW with loss_type := some "bogus", num_iters := 1 }

/-- The loop state after the first iteration of the `cfgW`/`extW`/`optW`
run started from logits `[1]`. -/
def sW : LoopState :=
  { logits := [0, 1], optState := [], loss_list := [-1], itr_list := [0],
    stepCount := 1, last_print_pred := some [Fl.fin 1],
    psf_save := some (some [Fl.fin (1 * 1)]), rendered := [0] }

-- ===== claims =====

/-!
Specification lemmas about the embedded operations, shared by the claim
theorems below.
-/

/-- A normal return of `get_psf` passed the NaN check and carries exactly
the PSF, its sum, the print prediction and the mask of the current logits. -/
theorem get_psf_ok_spec (flag : Bool) (ext : Ext) (l : Logits)
    (out : Tensor × Fl × Tensor × Tensor)
    (h : get_psf flag ext l = .ok out) :
    hasNaN (psfAt flag ext l) = false ∧
    out = (psfAt flag ext l, sumT (psfAt flag ext l), printAt flag ext l,
           ext.get_doe_sample l) := by
  simp only [get_psf] at h
  split at h
  · simp at h
  · rename_i hnan
    simp only [Except.ok.injEq] at h
    exact ⟨by simpa using hnan, h.symm⟩

/-- A normal return of the camera forward determines all five outputs as
functions of the current logits and the target batch. -/
theorem forward_ok_spec (flag : Bool) (ext : Ext) (l : Logits) (t : Tensor)
    (out : Tensor × Tensor × Fl × Tensor × Tensor)
    (h : forward flag ext l t = .ok out) :
    hasNaN (psfAt flag ext l) = false ∧
    out = (mkSensor ext t (psfAt flag ext l), psfAt flag ext l,
           sumT (psfAt flag ext l), printAt flag ext l, ext.get_doe_sample l) := by
  unfold forward at h
  split at h
  · simp at h
  · rename_i heq
    obtain ⟨hnan, hout⟩ := get_psf_ok_spec _ _ _ _ heq
    simp only [Except.ok.injEq] at h
    subst h
    simp only [Prod.mk.injEq] at hout
    obtain ⟨h1, h2, h3, h4⟩ := hout
    exact ⟨hnan, by simp [h1, h2, h3, h4]⟩

/-- When the PSF has no NaN element, the camera forward returns normally
with the expected payload. -/
theorem forward_ok_of (flag : Bool) (ext : Ext) (l : Logits) (t : Tensor)
    (hnan : hasNaN (psfAt flag ext l) = false) :
    forward flag ext l t =
      .ok (mkSensor ext t (psfAt flag ext l), psfAt flag ext l,
           sumT (psfAt flag ext l), printAt flag ext l, ext.get_doe_sample l) := by
  simp [forward, get_psf, hnan]

/-- A normal return of `visualize` implies a nonzero interval, and the
snapshot is `some` cropped PSF exactly on interval iterations. -/
theorem visualize_ok_spec (k : ℕ) (ext : Ext) (i : ℕ) (psf : Tensor)
    (v : Option Tensor) (h : visualize k ext i psf = .ok v) :
    k ≠ 0 ∧ v = (if (i + 1) % k = 0
      then some (ext.central_crop (ext.normalize psf) 128) else none) := by
  unfold visualize at h
  split at h
  · simp at h
  · rename_i hk
    split at h <;> simp only [Except.ok.injEq] at h <;>
      simp_all

/-- `visualize` with a nonzero interval returns normally. -/
theorem visualize_ok_of (k : ℕ) (ext : Ext) (i : ℕ) (psf : Tensor) (hk : ¬ k = 0) :
    visualize k ext i psf =
      .ok (if (i + 1) % k = 0
        then some (ext.central_crop (ext.normalize psf) 128) else none) := by
  unfold visualize
  rw [if_neg hk]
  split <;> simp_all

/-- `calculate_loss` raises on any `loss_type` other than `cbr` and
`deconv_loss`. -/
theorem calculate_loss_bad (lt : Option String) (ext : Ext) (a b c : Tensor)
    (h1 : lt ≠ some "cbr") (h2 : lt ≠ some "deconv_loss") :
    calculate_loss lt ext a b c = .error .badLossType := by
  simp [calculate_loss, h1, h2]

/-- What one successful loop iteration does to the state: one optimizer
step, one loss and one index appended, `print_pred` and `psf_save`
rebound, diagnostics rendered exactly on interval iterations. -/
theorem runIter_ok_spec (cfg : Config) (ext : Ext) (opt : OptCfg) (t : Tensor)
    (i : ℕ) (s s1 : LoopState) (h : runIter cfg ext opt t i s = .ok s1) :
    hasNaN (psfAt cfg.use_litho_model_flag ext s.logits) = false ∧
    cfg.image_visualize_interval ≠ 0 ∧
    s1.logits = (opt.step s.optState s.logits).2 ∧
    s1.optState = (if cfg.use_scheduler
      then opt.sched (opt.step s.optState s.logits).1
      else (opt.step s.optState s.logits).1) ∧
    (∃ q, s1.loss_list = s.loss_list ++ [q]) ∧
    s1.itr_list = s.itr_list ++ [i] ∧
    s1.stepCount = s.stepCount + 1 ∧
    s1.last_print_pred = some (printAt cfg.use_litho_model_flag ext s.logits) ∧
    s1.psf_save = some (if (i + 1) % cfg.image_visualize_interval = 0
      then some (ext.central_crop
        (ext.normalize (psfAt cfg.use_litho_model_flag ext s.logits)) 128)
      else none) ∧
    s1.rendered = s.rendered ++
      (if (i + 1) % cfg.image_visualize_interval = 0 then [i] else []) := by
  unfold runIter at h
  split at h
  · simp at h
  · rename_i fwout heqF
    obtain ⟨hnan, hout⟩ := forward_ok_spec _ _ _ _ _ heqF
    split at h
    · simp at h
    · rename_i lres heqL
      split at h <;>
      · rename_i hsched
        split at h
        · simp at h
        · rename_i vres heqV
          obtain ⟨hk, hv⟩ := visualize_ok_spec _ _ _ _ _ heqV
          simp only [Except.ok.injEq] at h
          subst h
          simp only [Prod.mk.injEq] at hout
          obtain ⟨hsens, hpsf, hsum, hpp, hmask⟩ := hout
          subst hpsf hpp
          refine ⟨hnan, hk, rfl, by simp [hsched], ⟨lres.loss, rfl⟩, rfl, rfl, rfl, ?_, ?_⟩
          · simp [hv]
          · simp only [hv]
            by_cases hc : (i + 1) % cfg.image_visualize_interval = 0 <;> simp [hc]

/-- One loop iteration started from states agreeing on the trajectory
core behaves identically under two configurations that differ only in
the (nonzero) visualization interval. -/
theorem runIter_core_congr (cfg : Config) (k : ℕ) (hk : ¬ k = 0)
    (hk0 : ¬ cfg.image_visualize_interval = 0)
    (ext : Ext) (opt : OptCfg) (t : Tensor) (i : ℕ) (s s2 : LoopState)
    (hcore : s.core = s2.core) :
    (runIter cfg ext opt t i s).map LoopState.core =
      (runIter { cfg with image_visualize_interval := k } ext opt t i s2).map
        LoopState.core := by
  simp only [LoopState.core, Prod.mk.injEq] at hcore
  obtain ⟨hl, ho, hll, hil, hsc, hpp⟩ := hcore
  unfold runIter
  rw [show ({ cfg with image_visualize_interval := k } : Config).use_litho_model_flag
        = cfg.use_litho_model_flag from rfl,
      show ({ cfg with image_visualize_interval := k } : Config).loss_type
        = cfg.loss_type from rfl,
      show ({ cfg with image_visualize_interval := k } : Config).use_scheduler
        = cfg.use_scheduler from rfl,
      ← hl, ← ho, ← hll, ← hil, ← hsc]
  split
  · rfl
  · rename_i sensor psf psum pp mask
    split
    · rfl
    · rename_i lres
      rw [show ({ cfg with image_visualize_interval := k } : Config).image_visualize_interval
            = k from rfl]
      rw [visualize_ok_of cfg.image_visualize_interval ext i _ hk0,
          visualize_ok_of k ext i _ hk]
      simp [LoopState.core, Except.map]

/-- Aggregate effect of a successful loop segment: step count and history
lengths grow by the number of iterations, the iteration list records the
indices, and diagnostics were rendered exactly on interval iterations. -/
theorem runLoopAux_ok_spec (cfg : Config) (ext : Ext) (opt : OptCfg) (t : Tensor)
    (is : List ℕ) (s s1 : LoopState)
    (h : runLoopAux cfg ext opt t s is = (s1, none)) :
    s1.stepCount = s.stepCount + is.length ∧
    s1.loss_list.length = s.loss_list.length + is.length ∧
    s1.itr_list = s.itr_list ++ is ∧
    s1.rendered = s.rendered ++
      is.filter (fun j => (j + 1) % cfg.image_visualize_interval == 0) := by
  induction is generalizing s with
  | nil =>
    unfold runLoopAux at h
    simp only [Prod.mk.injEq] at h
    simp [h.1]
  | cons i rest ih =>
    unfold runLoopAux at h
    cases hr : runIter cfg ext opt t i s with
    | error e => rw [hr] at h; simp at h
    | ok s' =>
      rw [hr] at h
      obtain ⟨_, _, _, _, ⟨q, hq⟩, hitr, hstep, _, _, hrend⟩ :=
        runIter_ok_spec _ _ _ _ _ _ _ hr
      obtain ⟨ih1, ih2, ih3, ih4⟩ := ih _ h
      have hlen : s'.loss_list.length = s.loss_list.length + 1 := by
        rw [hq]; simp
      refine ⟨?_, ?_, ?_, ?_⟩
      · simp only [List.length_cons]; omega
      · rw [ih2, hlen]; simp only [List.length_cons]; omega
      · rw [ih3, hitr]; simp
      · rw [ih4, hrend]
        by_cases hc : (i + 1) % cfg.image_visualize_interval = 0 <;>
          simp [hc, List.filter_cons]

/-- A successful loop over `is ++ [j]` is a successful loop over `is`
followed by one successful iteration `j`. -/
theorem runLoopAux_concat (cfg : Config) (ext : Ext) (opt : OptCfg) (t : Tensor)
    (is : List ℕ) (j : ℕ) (s sf : LoopState)
    (h : runLoopAux cfg ext opt t s (is ++ [j]) = (sf, none)) :
    ∃ s', runLoopAux cfg ext opt t s is = (s', none) ∧
      runIter cfg ext opt t j s' = .ok sf := by
  induction is generalizing s with
  | nil =>
    simp only [List.nil_append] at h
    unfold runLoopAux at h
    cases hr : runIter cfg ext opt t j s with
    | error e => rw [hr] at h; simp at h
    | ok s1 =>
      rw [hr] at h
      unfold runLoopAux at h
      simp only [Prod.mk.injEq] at h
      exact ⟨s, rfl, by rw [hr, h.1]⟩
  | cons i rest ih =>
    simp only [List.cons_append] at h
    unfold runLoopAux at h
    cases hr : runIter cfg ext opt t i s with
    | error e => rw [hr] at h; simp at h
    | ok s1 =>
      rw [hr] at h
      obtain ⟨s', h1, h2⟩ := ih _ h
      refine ⟨s', ?_, h2⟩
      unfold runLoopAux
      rw [hr]
      exact h1

/-- The whole loop's trajectory core and error outcome are unchanged by
replacing the (nonzero) visualization interval with any other nonzero one. -/
theorem runLoopAux_core_congr (cfg : Config) (k : ℕ) (hk : ¬ k = 0)
    (hk0 : ¬ cfg.image_visualize_interval = 0)
    (ext : Ext) (opt : OptCfg) (t : Tensor) (is : List ℕ) (s s2 : LoopState)
    (hcore : s.core = s2.core) :
    (runLoopAux cfg ext opt t s is).1.core =
      (runLoopAux { cfg with image_visualize_interval := k } ext opt t s2 is).1.core ∧
    (runLoopAux cfg ext opt t s is).2 =
      (runLoopAux { cfg with image_visualize_interval := k } ext opt t s2 is).2 := by
  induction is generalizing s s2 with
  | nil => simpa [runLoopAux]
  | cons i rest ih =>
    have hcc := runIter_core_congr cfg k hk hk0 ext opt t i s s2 hcore
    unfold runLoopAux
    cases h1 : runIter cfg ext opt t i s with
    | error e =>
      rw [h1] at hcc
      cases h2 : runIter { cfg with image_visualize_interval := k } ext opt t i s2 with
      | error e2 =>
        rw [h2] at hcc
        simp only [Except.map] at hcc
        cases hcc
        exact ⟨hcore, rfl⟩
      | ok s2' => rw [h2] at hcc; simp [Except.map] at hcc
    | ok s1' =>
      rw [h1] at hcc
      cases h2 : runIter { cfg with image_visualize_interval := k } ext opt t i s2 with
      | error e2 => rw [h2] at hcc; simp [Except.map] at hcc
      | ok s2' =>
        rw [h2] at hcc
        simp only [Except.map, Except.ok.injEq] at hcc
        exact ih _ _ hcc

-- ===== concrete instantiations of the external collaborators (for closed instances) =====

/-- With an unrecognized `loss_type` and a NaN-free PSF, a loop iteration
raises the configuration error. -/
theorem runIter_bad (cfg : Config) (ext : Ext) (opt : OptCfg) (t : Tensor)
    (i : ℕ) (s : LoopState)
    (h1 : cfg.loss_type ≠ some "cbr") (h2 : cfg.loss_type ≠ some "deconv_loss")
    (hnan : hasNaN (psfAt cfg.use_litho_model_flag ext s.logits) = false) :
    runIter cfg ext opt t i s = .error .badLossType := by
  unfold runIter
  rw [forward_ok_of cfg.use_litho_model_flag ext s.logits t hnan]
  simp [calculate_loss_bad, h1, h2]

/-- Eta-expansion of a successful loop result. -/
theorem runLoop_pair (cfg : Config) (ext : Ext) (opt : OptCfg) (t : Tensor)
    (l0 : Logits) (o0 : List ℚ) (h : (runLoop cfg ext opt t l0 o0).2 = none) :
    runLoop cfg ext opt t l0 o0 = ((runLoop cfg ext opt t l0 o0).1, none) := by
  rw [← h]

/-!
The claim theorems.
-/

/-- Claim C1, counterexample: the check after PSF computation tests NaN
only, so a forward pass whose propagation returns an Inf field element
returns normally with an Inf element in the PSF — refuting the claim
that a normal return contains no NaN/Inf element. -/
theorem C1_counterexample :
    get_psf false { extW with lens_model := fun _ => [Fl.inf] } [0] =
      .ok ([Fl.inf], Fl.inf, [Fl.fin 0], [Fl.fin 0]) ∧
    hasInf [Fl.inf] = true := ⟨rfl, rfl⟩

/-- Claim C1 (amended): after the PSF is computed from the print
prediction, `CameraPipeline.get_psf` raises (bare `raise`, no recovery)
if any PSF element is NaN; the check covers NaN only, so every forward
pass that returns normally returns a PSF with no NaN element (Inf
elements are not checked and may be returned). -/
theorem C1_no_nan_on_normal_return (flag : Bool) (ext : Ext) (l : Logits)
    (out : Tensor × Fl × Tensor × Tensor) (h : get_psf flag ext l = .ok out) :
    hasNaN out.1 = false := by
  obtain ⟨hnan, hout⟩ := get_psf_ok_spec _ _ _ _ h
  rw [hout]
  exact hnan

/-- Claim C1, witness: a concrete normal return of `get_psf`, whose PSF
the theorem shows NaN-free. -/
theorem C1_no_nan_on_normal_return_witness :
    hasNaN [Fl.fin (2 * 2)] = false :=
  C1_no_nan_on_normal_return false extW [2]
    ([Fl.fin (2 * 2)], Fl.fin (0 + 2 * 2), [Fl.fin 2], [Fl.fin 2]) rfl

/-- Claim C2: loading pretrained weights runs
`param.requries_grad = False` — a misspelling of `requires_grad` — so
after `load_pretrained_litho_model(True)` every parameter still has
`requires_grad = True` (the misspelled attribute is set instead):
the lithography model is not actually frozen and gradients still flow
into its parameters. -/
theorem C2_freeze_ineffective :
    (load_pretrained_litho_model true [(3 : ℚ)]
        [{ value := 0, requires_grad := true, requries_grad := true }]).map
      Param.requires_grad = [true] ∧
    (load_pretrained_litho_model true [(3 : ℚ)]
        [{ value := 0, requires_grad := true, requries_grad := true }]).map
      Param.requries_grad = [false] := ⟨rfl, rfl⟩

/-- Claim C3: for every `loss_type` other than `cbr` and `deconv_loss`,
`calculate_loss` raises, and in `optim` (with at least one iteration and
a NaN-free first PSF) the exception surfaces during the first loop
iteration with zero optimizer steps applied and the logits untouched. -/
theorem C3_bad_loss_type_raises_before_step (cfg : Config) (ext : Ext) (opt : OptCfg)
    (t : Tensor) (l0 : Logits) (o0 : List ℚ) (cam target psf : Tensor)
    (h1 : cfg.loss_type ≠ some "cbr") (h2 : cfg.loss_type ≠ some "deconv_loss")
    (hn : 1 ≤ cfg.num_iters)
    (hnan : hasNaN (psfAt cfg.use_litho_model_flag ext l0) = false) :
    calculate_loss cfg.loss_type ext cam target psf = .error .badLossType ∧
    runLoop cfg ext opt t l0 o0 = (initState l0 o0, some .badLossType) ∧
    optim cfg ext opt t l0 o0 = .error .badLossType ∧
    (runLoop cfg ext opt t l0 o0).1.stepCount = 0 ∧
    (runLoop cfg ext opt t l0 o0).1.logits = l0 := by
  have hloop : runLoop cfg ext opt t l0 o0 = (initState l0 o0, some .badLossType) := by
    obtain ⟨m, hm⟩ : ∃ m, cfg.num_iters = m + 1 := ⟨cfg.num_iters - 1, by omega⟩
    unfold runLoop
    rw [hm, List.range_succ_eq_map]
    unfold runLoopAux
    rw [runIter_bad cfg ext opt t 0 (initState l0 o0) h1 h2 hnan]
  refine ⟨calculate_loss_bad _ _ _ _ _ h1 h2, hloop, ?_, by rw [hloop]; rfl,
    by rw [hloop]; rfl⟩
  unfold optim
  rw [hloop]

/-- Claim C3, witness: the `cfgBad` run (loss type `bogus`) raises with
zero steps taken. -/
theorem C3_bad_loss_type_raises_before_step_witness :
    calculate_loss cfgBad.loss_type extW [Fl.fin 1] [Fl.fin 2] [Fl.fin 3]
      = .error .badLossType ∧
    runLoop cfgBad extW optW [Fl.fin 1] [1] [] = (initState [1] [], some .badLossType) ∧
    optim cfgBad extW optW [Fl.fin 1] [1] [] = .error .badLossType ∧
    (runLoop cfgBad extW optW [Fl.fin 1] [1] []).1.stepCount = 0 ∧
    (runLoop cfgBad extW optW [Fl.fin 1] [1] []).1.logits = [1] :=
  C3_bad_loss_type_raises_before_step cfgBad extW optW [Fl.fin 1] [1] []
    [Fl.fin 1] [Fl.fin 2] [Fl.fin 3] (by decide) (by decide) (by decide) rfl

/-- Claim C4: with `loss_type = cbr` the deconvolution routine is never
invoked (`deconvCalls = 0`, and the loss is unchanged under replacing
the images and every external except `center_to_background_ratio` and
`log`), `deconv_result` is `None`, and the loss is
`-log(center_to_background_ratio(psf, 10))`; with
`loss_type = deconv_loss` the routine is invoked exactly once and the
loss is the smooth-L1 distance between its result and the target. -/
theorem C4_loss_branches (ext ext2 : Ext) (cam cam2 target target2 psf : Tensor)
    (hcbr : ext2.cbrFn = ext.cbrFn) (hlog : ext2.logFn = ext.logFn) :
    (calculate_loss (some "cbr") ext cam target psf).map LossResult.deconv_result
      = .ok none ∧
    (calculate_loss (some "cbr") ext cam target psf).map LossResult.deconvCalls
      = .ok 0 ∧
    (calculate_loss (some "cbr") ext cam target psf).map LossResult.loss
      = .ok (-(ext.logFn (ext.cbrFn psf 10))) ∧
    (calculate_loss (some "cbr") ext cam target psf).map LossResult.loss
      = (calculate_loss (some "cbr") ext2 cam2 target2 psf).map LossResult.loss ∧
    (calculate_loss (some "deconv_loss") ext cam target psf).map LossResult.deconvCalls
      = .ok 1 ∧
    (calculate_loss (some "deconv_loss") ext cam target psf).map LossResult.deconv_result
      = .ok (some (ext.torch_richardson_lucy_fft cam psf)) ∧
    (calculate_loss (some "deconv_loss") ext cam target psf).map LossResult.loss
      = .ok (ext.loss_fn (ext.torch_richardson_lucy_fft cam psf) target) := by
  simp [calculate_loss, Except.map, hcbr, hlog]

/-- Claim C4, witness: both branches evaluated at concrete inputs, with
a second external environment differing in the deconvolution routine and
the structural metric. -/
theorem C4_loss_branches_witness :
    (calculate_loss (some "cbr") extW [Fl.fin 1] [Fl.fin 2] [Fl.fin 3]).map
      LossResult.deconv_result = .ok none ∧
    (calculate_loss (some "cbr") extW [Fl.fin 1] [Fl.fin 2] [Fl.fin 3]).map
      LossResult.deconvCalls = .ok 0 ∧
    (calculate_loss (some "cbr") extW [Fl.fin 1] [Fl.fin 2] [Fl.fin 3]).map
      LossResult.loss = .ok (-(extW.logFn (extW.cbrFn [Fl.fin 3] 10))) ∧
    (calculate_loss (some "cbr") extW [Fl.fin 1] [Fl.fin 2] [Fl.fin 3]).map
      LossResult.loss
      = (calculate_loss (some "cbr")
          { extW with torch_richardson_lucy_fft := fun _ _ => [Fl.nan],
                      ssimLoss := fun _ _ => 5 }
          [Fl.fin 7] [Fl.fin 8] [Fl.fin 3]).map LossResult.loss ∧
    (calculate_loss (some "deconv_loss") extW [Fl.fin 1] [Fl.fin 2] [Fl.fin 3]).map
      LossResult.deconvCalls = .ok 1 ∧
    (calculate_loss (some "deconv_loss") extW [Fl.fin 1] [Fl.fin 2] [Fl.fin 3]).map
      LossResult.deconv_result
      = .ok (some (extW.torch_richardson_lucy_fft [Fl.fin 1] [Fl.fin 3])) ∧
    (calculate_loss (some "deconv_loss") extW [Fl.fin 1] [Fl.fin 2] [Fl.fin 3]).map
      LossResult.loss
      = .ok (extW.loss_fn (extW.torch_richardson_lucy_fft [Fl.fin 1] [Fl.fin 3])
          [Fl.fin 2]) :=
  C4_loss_branches extW
    { extW with torch_richardson_lucy_fft := fun _ _ => [Fl.nan],
                ssimLoss := fun _ _ => 5 }
    [Fl.fin 1] [Fl.fin 7] [Fl.fin 2] [Fl.fin 8] [Fl.fin 3] rfl rfl

/-- Claim C5: the sensor-noise injection uses the hardcoded constants
0.004 and 0.02, not the configured `cam_a_poisson` / `cam_b_sqrt`:
replacing those two configuration values changes nothing in the forward
pass, and the sensor image is exactly the convolution plus
`sensor_noise(·, 0.004, 0.02)`. -/
theorem C5_noise_coeffs_noninterference (cfg : Config) (a b : ℚ) (ext : Ext)
    (l : Logits) (t : Tensor) (out : Tensor × Tensor × Fl × Tensor × Tensor)
    (h : mbo_forward cfg ext l t = .ok out) :
    mbo_forward { cfg with cam_a_poisson := a, cam_b_sqrt := b } ext l t =
      mbo_forward cfg ext l t ∧
    out.1 = tadd (ext.conv2d t out.2.1 true)
      (ext.sensor_noise (ext.conv2d t out.2.1 true) (4 / 1000) (2 / 100)) := by
  obtain ⟨hnan, hout⟩ := forward_ok_spec _ _ _ _ _ h
  exact ⟨rfl, by rw [hout]; rfl⟩

/-- Claim C5, witness: a concrete forward pass, with the coefficients
replaced by 7 and 9. -/
theorem C5_noise_coeffs_noninterference_witness :
    mbo_forward { cfgW with cam_a_poisson := 7, cam_b_sqrt := 9 } extW [1] [Fl.fin 3] =
      mbo_forward cfgW extW [1] [Fl.fin 3] ∧
    ([Fl.fin (3 + 3)] : Tensor) =
      tadd (extW.conv2d [Fl.fin 3] [Fl.fin (1 * 1)] true)
        (extW.sensor_noise (extW.conv2d [Fl.fin 3] [Fl.fin (1 * 1)] true)
          (4 / 1000) (2 / 100)) :=
  C5_noise_coeffs_noninterference cfgW 7 9 extW [1] [Fl.fin 3]
    ([Fl.fin (3 + 3)], [Fl.fin (1 * 1)], Fl.fin (0 + 1 * 1), [Fl.fin 1], [Fl.fin 1])
    rfl

/-- Claim C6: in both modes the reported structural metric is
`1 - raw * 2` and the noise metric is `-raw`, computed between the
sensor image and the target; `deconv_loss` mode appends a second pair
computed between the deconvolution result and the target, so the metric
lists have length 1 in `cbr` mode and 2 in `deconv_loss` mode. -/
theorem C6_metric_conventions (ext : Ext) (cam target psf : Tensor) :
    (calculate_loss (some "cbr") ext cam target psf).map LossResult.metric_ssim
      = .ok [1 - ext.ssimLoss cam target * 2] ∧
    (calculate_loss (some "cbr") ext cam target psf).map LossResult.metric_psnr
      = .ok [-(ext.psnrLoss cam target)] ∧
    ((calculate_loss (some "cbr") ext cam target psf).map
      fun r => r.metric_ssim.length) = .ok 1 ∧
    ((calculate_loss (some "cbr") ext cam target psf).map
      fun r => r.metric_psnr.length) = .ok 1 ∧
    (calculate_loss (some "deconv_loss") ext cam target psf).map LossResult.metric_ssim
      = .ok [1 - ext.ssimLoss cam target * 2,
          1 - ext.ssimLoss (ext.torch_richardson_lucy_fft cam psf) target * 2] ∧
    (calculate_loss (some "deconv_loss") ext cam target psf).map LossResult.metric_psnr
      = .ok [-(ext.psnrLoss cam target),
          -(ext.psnrLoss (ext.torch_richardson_lucy_fft cam psf) target)] ∧
    ((calculate_loss (some "deconv_loss") ext cam target psf).map
      fun r => r.metric_ssim.length) = .ok 2 ∧
    ((calculate_loss (some "deconv_loss") ext cam target psf).map
      fun r => r.metric_psnr.length) = .ok 2 := by
  simp [calculate_loss, Except.map]

/-- Claim C7: with `use_litho_model_flag = False` the print prediction
returned by `get_psf` is the mask sample itself; with the flag set it is
the lithography model applied to the mask sample. -/
theorem C7_litho_bypass (ext : Ext) (l : Logits)
    (out out2 : Tensor × Fl × Tensor × Tensor)
    (h1 : get_psf false ext l = .ok out)
    (h2 : get_psf true ext l = .ok out2) :
    out.2.2.1 = ext.get_doe_sample l ∧
    out.2.2.1 = out.2.2.2 ∧
    out2.2.2.1 = ext.litho_model (ext.get_doe_sample l) := by
  obtain ⟨-, hout⟩ := get_psf_ok_spec _ _ _ _ h1
  obtain ⟨-, hout2⟩ := get_psf_ok_spec _ _ _ _ h2
  rw [hout, hout2]
  refine ⟨?_, ?_, ?_⟩ <;> simp [printAt]

/-- Claim C7, witness: both flag settings evaluated on concrete logits. -/
theorem C7_litho_bypass_witness :
    (([Fl.fin (3 * 3)], Fl.fin (0 + 3 * 3), [Fl.fin 3], [Fl.fin 3])).2.2.1
      = extW.get_doe_sample [3] ∧
    (([Fl.fin (3 * 3)], Fl.fin (0 + 3 * 3), [Fl.fin 3], [Fl.fin 3])).2.2.1
      = (([Fl.fin (3 * 3)], Fl.fin (0 + 3 * 3), [Fl.fin 3], [Fl.fin 3])).2.2.2 ∧
    (([Fl.fin (3 * 3)], Fl.fin (0 + 3 * 3), [Fl.fin 3], [Fl.fin 3])).2.2.1
      = extW.litho_model (extW.get_doe_sample [3]) :=
  C7_litho_bypass extW [3]
    ([Fl.fin (3 * 3)], Fl.fin (0 + 3 * 3), [Fl.fin 3], [Fl.fin 3])
    ([Fl.fin (3 * 3)], Fl.fin (0 + 3 * 3), [Fl.fin 3], [Fl.fin 3]) rfl rfl

/-- Claim C8: a completed loop ran exactly `num_iters` iterations — one
optimizer step, one loss append and one index append each — rendered
diagnostics exactly on iterations with `(i+1) % interval = 0`, and the
trajectory (logits, optimizer state, histories, print prediction) is
identical under any other positive visualization interval. -/
theorem C8_loop_structure (cfg : Config) (ext : Ext) (opt : OptCfg) (t : Tensor)
    (l0 : Logits) (o0 : List ℚ) (k : ℕ) (hk : 1 ≤ k)
    (h : (runLoop cfg ext opt t l0 o0).2 = none) :
    (runLoop cfg ext opt t l0 o0).1.stepCount = cfg.num_iters ∧
    (runLoop cfg ext opt t l0 o0).1.loss_list.length = cfg.num_iters ∧
    (runLoop cfg ext opt t l0 o0).1.itr_list = List.range cfg.num_iters ∧
    (runLoop cfg ext opt t l0 o0).1.rendered = (List.range cfg.num_iters).filter
      (fun j => (j + 1) % cfg.image_visualize_interval == 0) ∧
    (runLoop { cfg with image_visualize_interval := k } ext opt t l0 o0).2 = none ∧
    (runLoop { cfg with image_visualize_interval := k } ext opt t l0 o0).1.core =
      (runLoop cfg ext opt t l0 o0).1.core := by
  have hfull : runLoopAux cfg ext opt t (initState l0 o0) (List.range cfg.num_iters)
      = ((runLoop cfg ext opt t l0 o0).1, none) := runLoop_pair cfg ext opt t l0 o0 h
  obtain ⟨h1, h2, h3, h4⟩ := runLoopAux_ok_spec cfg ext opt t _ _ _ hfull
  have hni : (runLoop { cfg with image_visualize_interval := k } ext opt t l0 o0).2 = none ∧
      (runLoop { cfg with image_visualize_interval := k } ext opt t l0 o0).1.core =
        (runLoop cfg ext opt t l0 o0).1.core := by
    rcases Nat.eq_zero_or_pos cfg.num_iters with h0 | hpos
    · have e1 : runLoop cfg ext opt t l0 o0 = (initState l0 o0, none) := by
        unfold runLoop; rw [h0]; rfl
      have e2 : runLoop { cfg with image_visualize_interval := k } ext opt t l0 o0
          = (initState l0 o0, none) := by
        unfold runLoop
        rw [show ({ cfg with image_visualize_interval := k } : Config).num_iters
              = cfg.num_iters from rfl, h0]
        rfl
      rw [e1, e2]
      exact ⟨rfl, rfl⟩
    · obtain ⟨m, hm⟩ : ∃ m, cfg.num_iters = m + 1 := ⟨cfg.num_iters - 1, by omega⟩
      have hfull2 : runLoopAux cfg ext opt t (initState l0 o0) (List.range m ++ [m])
          = ((runLoop cfg ext opt t l0 o0).1, none) := by
        have hr : List.range m ++ [m] = List.range cfg.num_iters := by
          rw [hm, List.range_succ]
        rw [hr]; exact hfull
      obtain ⟨s', haux, hiter⟩ := runLoopAux_concat cfg ext opt t _ _ _ _ hfull2
      obtain ⟨-, hk0, -, -, -, -, -, -, -, -⟩ := runIter_ok_spec _ _ _ _ _ _ _ hiter
      have hcongr := runLoopAux_core_congr cfg k (by omega) hk0 ext opt t
        (List.range cfg.num_iters) (initState l0 o0) (initState l0 o0) rfl
      exact ⟨hcongr.2 ▸ h, hcongr.1.symm⟩
  refine ⟨?_, ?_, ?_, ?_, hni.1, hni.2⟩
  · simpa [initState] using h1
  · simpa [initState] using h2
  · simpa [initState] using h3
  · simpa [initState] using h4

/-- Claim C8, witness: the two-iteration `cfgW` run, compared against
interval 3. -/
theorem C8_loop_structure_witness :
    (runLoop cfgW extW optW [Fl.fin 1] [1] []).1.stepCount = cfgW.num_iters ∧
    (runLoop cfgW extW optW [Fl.fin 1] [1] []).1.loss_list.length = cfgW.num_iters ∧
    (runLoop cfgW extW optW [Fl.fin 1] [1] []).1.itr_list
      = List.range cfgW.num_iters ∧
    (runLoop cfgW extW optW [Fl.fin 1] [1] []).1.rendered
      = (List.range cfgW.num_iters).filter
        (fun j => (j + 1) % cfgW.image_visualize_interval == 0) ∧
    (runLoop { cfgW with image_visualize_interval := 3 } extW optW [Fl.fin 1] [1] []).2
      = none ∧
    (runLoop { cfgW with image_visualize_interval := 3 } extW optW [Fl.fin 1] [1] []).1.core
      = (runLoop cfgW extW optW [Fl.fin 1] [1] []).1.core :=
  C8_loop_structure cfgW extW optW [Fl.fin 1] [1] [] 3 (by decide) rfl

/-- Claim C9: finalization succeeds exactly when `num_iters ≥ 1` and
`num_iters` is divisible by the visualization interval; with zero
iterations the saved snapshot variable is unbound (`NameError`), with a
non-divisible count the last `visualize` returned `None` and saving
dereferences it (`AttributeError`); the snapshot saved is the return
value of the last iteration's `visualize` call. -/
theorem C9_finalize_success_iff (cfg : Config) (ext : Ext) (opt : OptCfg) (t : Tensor)
    (l0 : Logits) (o0 : List ℚ)
    (hk : 1 ≤ cfg.image_visualize_interval)
    (h : (runLoop cfg ext opt t l0 o0).2 = none) :
    ((∃ out, optim cfg ext opt t l0 o0 = .ok out) ↔
      (1 ≤ cfg.num_iters ∧ cfg.num_iters % cfg.image_visualize_interval = 0)) ∧
    (cfg.num_iters = 0 → optim cfg ext opt t l0 o0 = .error .unboundVar) ∧
    (1 ≤ cfg.num_iters → ¬ cfg.num_iters % cfg.image_visualize_interval = 0 →
      optim cfg ext opt t l0 o0 = .error .noneDeref) ∧
    (1 ≤ cfg.num_iters → ∃ v, (runLoop cfg ext opt t l0 o0).1.psf_save = some v ∧
      (v.isSome = true ↔ cfg.num_iters % cfg.image_visualize_interval = 0)) := by
  have hpair := runLoop_pair cfg ext opt t l0 o0 h
  rcases Nat.eq_zero_or_pos cfg.num_iters with h0 | hpos
  · have e1 : runLoop cfg ext opt t l0 o0 = (initState l0 o0, none) := by
      unfold runLoop; rw [h0]; rfl
    have hopt : optim cfg ext opt t l0 o0 = .error .unboundVar := by
      unfold optim; rw [e1]; rfl
    refine ⟨?_, fun _ => hopt, fun hn _ => absurd h0 (by omega),
      fun hn => absurd h0 (by omega)⟩
    constructor
    · rintro ⟨out, hout⟩
      rw [hopt] at hout
      exact absurd hout (by simp)
    · rintro ⟨hn, -⟩
      omega
  · obtain ⟨m, hm⟩ : ∃ m, cfg.num_iters = m + 1 := ⟨cfg.num_iters - 1, by omega⟩
    have hfull2 : runLoopAux cfg ext opt t (initState l0 o0) (List.range m ++ [m])
        = ((runLoop cfg ext opt t l0 o0).1, none) := by
      have hr : List.range m ++ [m] = List.range cfg.num_iters := by
        rw [hm, List.range_succ]
      rw [hr]; exact runLoop_pair cfg ext opt t l0 o0 h
    obtain ⟨s', haux, hiter⟩ := runLoopAux_concat cfg ext opt t _ _ _ _ hfull2
    obtain ⟨-, hk0, -, -, -, -, -, hlpp, hpsf, -⟩ := runIter_ok_spec _ _ _ _ _ _ _ hiter
    have hmod : (m + 1) % cfg.image_visualize_interval
        = cfg.num_iters % cfg.image_visualize_interval := by rw [hm]
    rw [hmod] at hpsf
    by_cases hdiv : cfg.num_iters % cfg.image_visualize_interval = 0
    · have hpsf2 : (runLoop cfg ext opt t l0 o0).1.psf_save
          = some (some (ext.central_crop (ext.normalize
              (psfAt cfg.use_litho_model_flag ext s'.logits)) 128)) := by
        rw [hpsf, if_pos hdiv]
      have hopt : optim cfg ext opt t l0 o0
          = .ok (ext.logits_to_doe_profile (runLoop cfg ext opt t l0 o0).1.logits,
              printAt cfg.use_litho_model_flag ext s'.logits) := by
        unfold optim
        rw [hpair]
        simp only [save_optimized_psf_mask, hpsf2, hlpp]
      refine ⟨?_, fun hz => absurd hz (by omega), fun _ hd => absurd hdiv hd, ?_⟩
      · exact ⟨fun _ => ⟨by omega, hdiv⟩, fun _ => ⟨_, hopt⟩⟩
      · exact fun _ => ⟨_, hpsf2, by simp [hdiv]⟩
    · have hpsf2 : (runLoop cfg ext opt t l0 o0).1.psf_save = some none := by
        rw [hpsf, if_neg hdiv]
      have hopt : optim cfg ext opt t l0 o0 = .error .noneDeref := by
        unfold optim
        rw [hpair]
        simp only [save_optimized_psf_mask, hpsf2]
      refine ⟨?_, fun hz => absurd hz (by omega), fun _ _ => hopt, ?_⟩
      · constructor
        · rintro ⟨out, hout⟩
          rw [hopt] at hout
          exact absurd hout (by simp)
        · rintro ⟨-, hd⟩
          exact absurd hd hdiv
      · exact fun _ => ⟨none, hpsf2, by simp [hdiv]⟩

/-- Claim C9, witness: the `cfgW` run (2 iterations, interval 1)
finalizes successfully. -/
theorem C9_finalize_success_iff_witness :
    ((∃ out, optim cfgW extW optW [Fl.fin 1] [1] [] = .ok out) ↔
      (1 ≤ cfgW.num_iters ∧ cfgW.num_iters % cfgW.image_visualize_interval = 0)) ∧
    (cfgW.num_iters = 0 → optim cfgW extW optW [Fl.fin 1] [1] [] = .error .unboundVar) ∧
    (1 ≤ cfgW.num_iters → ¬ cfgW.num_iters % cfgW.image_visualize_interval = 0 →
      optim cfgW extW optW [Fl.fin 1] [1] [] = .error .noneDeref) ∧
    (1 ≤ cfgW.num_iters → ∃ v, (runLoop cfgW extW optW [Fl.fin 1] [1] []).1.psf_save
      = some v ∧
      (v.isSome = true ↔ cfgW.num_iters % cfgW.image_visualize_interval = 0)) :=
  C9_finalize_success_iff cfgW extW optW [Fl.fin 1] [1] [] (by decide) rfl

/-- Claim C10: the print prediction returned by `optim` is the one
computed during the last iteration's forward pass — a function of the
logits before the final optimizer step — while the returned mask profile
is rendered from the logits after the final update, i.e. from
`opt.step` applied to that earlier state. -/
theorem C10_return_states (cfg : Config) (ext : Ext) (opt : OptCfg) (t : Tensor)
    (l0 : Logits) (o0 : List ℚ) (mret pp : Tensor) (s' : LoopState)
    (h : optim cfg ext opt t l0 o0 = .ok (mret, pp))
    (hs : runLoopAux cfg ext opt t (initState l0 o0)
      (List.range (cfg.num_iters - 1)) = (s', none)) :
    pp = printAt cfg.use_litho_model_flag ext s'.logits ∧
    mret = ext.logits_to_doe_profile (opt.step s'.optState s'.logits).2 ∧
    (runLoop cfg ext opt t l0 o0).1.logits = (opt.step s'.optState s'.logits).2 ∧
    1 ≤ cfg.num_iters := by
  have hnone : (runLoop cfg ext opt t l0 o0).2 = none := by
    cases he : (runLoop cfg ext opt t l0 o0).2 with
    | none => rfl
    | some e =>
      have hpair : runLoop cfg ext opt t l0 o0
          = ((runLoop cfg ext opt t l0 o0).1, some e) := by rw [← he]
      unfold optim at h
      rw [hpair] at h
      simp at h
  have hpair := runLoop_pair cfg ext opt t l0 o0 hnone
  rcases Nat.eq_zero_or_pos cfg.num_iters with h0 | hpos
  · exfalso
    have e1 : runLoop cfg ext opt t l0 o0 = (initState l0 o0, none) := by
      unfold runLoop; rw [h0]; rfl
    unfold optim at h
    rw [e1] at h
    simp [initState, save_optimized_psf_mask] at h
  · obtain ⟨m, hm⟩ : ∃ m, cfg.num_iters = m + 1 := ⟨cfg.num_iters - 1, by omega⟩
    have hfull2 : runLoopAux cfg ext opt t (initState l0 o0) (List.range m ++ [m])
        = ((runLoop cfg ext opt t l0 o0).1, none) := by
      have hr : List.range m ++ [m] = List.range cfg.num_iters := by
        rw [hm, List.range_succ]
      rw [hr]; exact hpair
    obtain ⟨s2, haux, hiter⟩ := runLoopAux_concat cfg ext opt t _ _ _ _ hfull2
    have hs2 : s2 = s' := by
      have hm1 : cfg.num_iters - 1 = m := by omega
      rw [hm1] at hs
      rw [haux] at hs
      exact (Prod.mk.injEq _ _ _ _ ▸ hs).1
    subst hs2
    obtain ⟨-, hk0, hlog, -, -, -, -, hlpp, hpsf, -⟩ :=
      runIter_ok_spec _ _ _ _ _ _ _ hiter
    by_cases hdiv : (m + 1) % cfg.image_visualize_interval = 0
    · have hpsf2 : (runLoop cfg ext opt t l0 o0).1.psf_save
          = some (some (ext.central_crop (ext.normalize
              (psfAt cfg.use_litho_model_flag ext s2.logits)) 128)) := by
        rw [hpsf, if_pos hdiv]
      have hopt : optim cfg ext opt t l0 o0
          = .ok (ext.logits_to_doe_profile (runLoop cfg ext opt t l0 o0).1.logits,
              printAt cfg.use_litho_model_flag ext s2.logits) := by
        unfold optim
        rw [hpair]
        simp only [save_optimized_psf_mask, hpsf2, hlpp]
      rw [hopt] at h
      simp only [Except.ok.injEq, Prod.mk.injEq] at h
      obtain ⟨hmret, hpp⟩ := h
      refine ⟨hpp.symm, ?_, hlog, by omega⟩
      rw [← hmret, hlog]
    · exfalso
      have hpsf2 : (runLoop cfg ext opt t l0 o0).1.psf_save = some none := by
        rw [hpsf, if_neg hdiv]
      have hopt : optim cfg ext opt t l0 o0 = .error .noneDeref := by
        unfold optim
        rw [hpair]
        simp only [save_optimized_psf_mask, hpsf2]
      rw [hopt] at h
      exact absurd h (by simp)

/-- Claim C10, witness: in the concrete run the returned print
prediction comes from logits `[0, 1]` while the profile is rendered from
the post-step logits `[0, 0, 1]`. -/
theorem C10_return_states_witness :
    ([Fl.fin 0, Fl.fin 1] : Tensor) = printAt cfgW.use_litho_model_flag extW sW.logits ∧
    ([Fl.fin 0, Fl.fin 0, Fl.fin 1] : Tensor)
      = extW.logits_to_doe_profile (optW.step sW.optState sW.logits).2 ∧
    (runLoop cfgW extW optW [Fl.fin 3] [1] []).1.logits
      = (optW.step sW.optState sW.logits).2 ∧
    1 ≤ cfgW.num_iters :=
  C10_return_states cfgW extW optW [Fl.fin 3] [1] []
    [Fl.fin 0, Fl.fin 0, Fl.fin 1] [Fl.fin 0, Fl.fin 1] sW rfl rfl

end NeuralLitho
